import Mathlib

/-!
Shallow embedding of the tool-calling orchestration core of the
System-Intelligence repository (src/backend.py and src/tools.py),
together with theorems checking the natural-language specification
against it.

The embedding models:
* the conversation data (turns, tool calls, chat messages, observer events),
* `RobotBackend.chat_step` (src/backend.py lines 76-129), including the
  placement of `json.loads` outside the inner dispatch try/except and the
  outer exception handler,
* the dispatch block (lines 98-105), which resolves the requested name
  against the backend module's global namespace,
* `TOOLS_SCHEMA` (lines 18-51) as the advertised capability catalog,
* the filesystem-facing tools `create_file`, `write_to_file` and
  `is_directory` from src/tools.py over an explicit filesystem state.

External collaborators (the remote model client and Python's `json.loads`)
are parameters of the embedding, exactly as the spec treats them
(abstracted at their interface boundary). Handlers' call behavior is a
parameter as well where only dispatch routing is at stake.
-/

namespace SystemIntelligence

/-- One entry of `msg.tool_calls`: correlation id, function name and the raw
(unparsed) JSON argument text, as produced by the model client. -/
structure ToolCall where
  id : String
  name : String
  arguments : String
deriving DecidableEq, Repr

/-- The fields of a chat-completion message that `chat_step` reads:
`content` (may be `None`) and `tool_calls` (`None` and `[]` are both falsy
in `if msg.tool_calls:`, so both are modelled as `[]`). -/
structure ChatMessage where
  content : Option String
  tool_calls : List ToolCall
deriving DecidableEq, Repr

/-- One entry of `self.history`. `system`/`user`/`assistant` model the dict
literals appended by the source; `assistantMsg` models appending the whole
message object when it carries tool calls (line 90); `toolResult` models the
dict appended at lines 107-112 (`tool_call_id`, `role: tool`, `name`,
`content`). -/
inductive Turn where
  | system (content : String)
  | user (content : String)
  | assistant (content : Option String)
  | assistantMsg (content : Option String) (tool_calls : List ToolCall)
  | toolResult (tool_call_id : String) (name : String) (content : String)
deriving DecidableEq, Repr

/-- Whether a turn is a ToolResult turn. -/
def Turn.isToolResult : Turn → Bool
  | .toolResult _ _ _ => true
  | _ => false

/-- An event yielded by the `chat_step` generator: either
`{"type": "status", "value": text}` or `{"type": "content", "value": text}`.
A content event's value is the message's `content` field, which may be
`None`. -/
inductive Event where
  | status (text : String)
  | content (text : Option String)
deriving DecidableEq, Repr

/-- Keyword arguments obtained from parsing a tool call's JSON payload
(`args = json.loads(...)`, then `func(**args)`). -/
abbrev Args := List (String × String)

/-- A value of the backend module's global namespace. A `callable` value's
call behavior is a function from keyword arguments to either a returned
text (`.ok`) or a raised exception's text (`.error`). Calling a
`nonCallable` value (for example an imported module object, whose type
name Python would quote in the TypeError text) raises. -/
inductive PyGlobal where
  | callable (impl : Args → Except String String)
  | nonCallable (typeName : String)

/-- `func(**args)`: calling a global. A non-callable object raises a
TypeError (Python renders it as «'module' object is not callable»; the
quotes around the type name are not reproduced here). -/
def callGlobal : PyGlobal → Args → Except String String
  | .callable f, args => f args
  | .nonCallable t, _ => .error (t ++ " object is not callable")

/-- The inner `try`/`except` of the dispatch block (src/backend.py lines
98-105): a returned value stands, a raised exception `e` becomes
`"Execution Error: " ++ e`. -/
def execResultText : Except String String → String
  | .ok result => result
  | .error e => "Execution Error: " ++ e

/-- The dispatch block of `chat_step` (src/backend.py lines 98-105): look
the requested name up in `globals()`; if present call it (any raised
exception becoming the Execution Error text); if absent produce the
not-implemented text. The appended tool-result content is `str(result)`,
the identity here because every modelled outcome is already text. -/
def dispatch (G : String → Option PyGlobal) (func_name : String) (args : Args) : String :=
  match G func_name with
  | some f => execResultText (callGlobal f args)
  | none => "Error: Function " ++ func_name ++ " not implemented."

/-- The model client abstraction: from the conversation history and whether
`TOOLS_SCHEMA` is offered (`true` for the first call of a turn, `false` for
the synthesis call), either a message (`.ok`) or a raised transport
exception's text (`.error`). -/
abbrev Client := List Turn → Bool → Except String ChatMessage

/-- The body of the `for tool_call in msg.tool_calls:` loop
(src/backend.py lines 92-113). Per call: `json.loads` the raw arguments —
this happens OUTSIDE the inner try/except, so a parse failure escapes the
loop (returned as `some e`) — then yield the Running status, dispatch,
append the tool-result turn, yield the Completed status. The function
returns the appended tool-result turns, the yielded events, and the
escaped exception text if any. -/
def runToolCalls (jsonLoads : String → Except String Args) (G : String → Option PyGlobal) :
    List ToolCall → List Turn × List Event × Option String
  | [] => ([], [], none)
  | tc :: rest =>
    match jsonLoads tc.arguments with
    | .error e => ([], [], some e)
    | .ok args =>
      let r := runToolCalls jsonLoads G rest
      (Turn.toolResult tc.id tc.name (dispatch G tc.name args) :: r.1,
       Event.status ("Running " ++ tc.name ++ "...") ::
         Event.status ("Completed " ++ tc.name ++ ".") :: r.2.1,
       r.2.2)

/-- The outcome of one `chat_step` run: the resulting `self.history`, the
events yielded in order, and per model-client call (in order) whether the
capability catalog was offered. -/
structure StepOutput where
  history : List Turn
  events : List Event
  modelCalls : List Bool
deriving DecidableEq, Repr

/-- `RobotBackend.chat_step` (src/backend.py lines 76-129). Appends the
user turn, makes the first model call with tools offered; on a message with
tool calls appends the message, runs the dispatch loop, then (unless a
parse failure escaped) makes the synthesis call without tools and appends
its content as an assistant turn; on a plain message appends it directly.
Any exception reaching the outer `try` (a model-client failure or an
escaped `json.loads` failure) yields a single content event
`"Error: " ++ e` and ends the turn. The source's `if msg.tool_calls:` is
rendered with the branches swapped (`= []` first). -/
def chat_step (client : Client) (jsonLoads : String → Except String Args)
    (G : String → Option PyGlobal) (history : List Turn) (user_input : String) : StepOutput :=
  match client (history ++ [Turn.user user_input]) true with
  | .error e =>
    ⟨history ++ [Turn.user user_input],
     [Event.content (some ("Error: " ++ e))], [true]⟩
  | .ok msg =>
    if msg.tool_calls = [] then
      ⟨history ++ [Turn.user user_input, Turn.assistant msg.content],
       [Event.content msg.content], [true]⟩
    else
      match runToolCalls jsonLoads G msg.tool_calls with
      | (ts, evs, some e) =>
        ⟨history ++ [Turn.user user_input, Turn.assistantMsg msg.content msg.tool_calls] ++ ts,
         evs ++ [Event.content (some ("Error: " ++ e))], [true]⟩
      | (ts, evs, none) =>
        match client (history ++ [Turn.user user_input,
            Turn.assistantMsg msg.content msg.tool_calls] ++ ts) false with
        | .error e =>
          ⟨history ++ [Turn.user user_input, Turn.assistantMsg msg.content msg.tool_calls] ++ ts,
           evs ++ [Event.content (some ("Error: " ++ e))], [true, false]⟩
        | .ok msg2 =>
          ⟨history ++ [Turn.user user_input, Turn.assistantMsg msg.content msg.tool_calls]
             ++ ts ++ [Turn.assistant msg2.content],
           evs ++ [Event.content msg2.content], [true, false]⟩

/-- The fixed system prompt installed by `RobotBackend.__init__`
(src/backend.py lines 61-63). -/
def systemPrompt : String :=
  "You are RobotCLI, an advanced Windows System Intelligence Agent. You can manage files (create, delete safe, zip), organize folders, and monitor system health (CPU/RAM). Always prefer 'safe' delete (Recycle Bin). When asked to organize, use the organize tool. Be helpful and precise."

/-- `self.history` right after session creation. -/
def initialHistory : List Turn := [Turn.system systemPrompt]

/-- Driving a session through a sequence of user inputs: each input is fed
to `chat_step` on the history the previous step returned. -/
def runSession (client : Client) (jsonLoads : String → Except String Args)
    (G : String → Option PyGlobal) : List String → List Turn → List Turn
  | [], h => h
  | ui :: rest, h => runSession client jsonLoads G rest (chat_step client jsonLoads G h ui).history

/-! ## The capability catalog (`TOOLS_SCHEMA`, src/backend.py lines 18-51) -/

/-- One property of a function schema's `parameters.properties` object:
the parameter's name and its declared JSON type. -/
structure ParamSpec where
  name : String
  type : String
deriving DecidableEq, Repr

/-- One catalog entry: the `function` object of a `TOOLS_SCHEMA` element
(`name`, `description`, the parameter properties and the `required`
list). -/
structure CapabilityDescriptor where
  name : String
  description : String
  parameters : List ParamSpec
  required : List String
deriving DecidableEq, Repr

/-- The advertised capability catalog, transcribed entry by entry from
`TOOLS_SCHEMA` (src/backend.py lines 18-51). Note that `is_directory` and
`manage_files` have no entry. -/
def TOOLS_SCHEMA : List CapabilityDescriptor :=
  [ ⟨"create_file", "Create a new file with optional content.",
      [⟨"path", "string"⟩, ⟨"content", "string"⟩], ["path"]⟩,
    ⟨"delete_file", "Delete a file. safe=True moves to recycle bin.",
      [⟨"path", "string"⟩, ⟨"safe", "boolean"⟩], ["path"]⟩,
    ⟨"rename_file", "Rename a file.",
      [⟨"path", "string"⟩, ⟨"new_name", "string"⟩], ["path", "new_name"]⟩,
    ⟨"get_file_info", "Get size, creation date, etc.",
      [⟨"path", "string"⟩], ["path"]⟩,
    ⟨"move_file", "Move a file or folder.",
      [⟨"source", "string"⟩, ⟨"destination", "string"⟩], ["source", "destination"]⟩,
    ⟨"copy_file", "Copy a file or folder.",
      [⟨"source", "string"⟩, ⟨"destination", "string"⟩], ["source", "destination"]⟩,
    ⟨"make_directory", "Create a directory recursively.",
      [⟨"path", "string"⟩], ["path"]⟩,
    ⟨"list_directory", "List contents of a directory.",
      [⟨"path", "string"⟩], ["path"]⟩,
    ⟨"search_files", "Search recursively by name or extension.",
      [⟨"query", "string"⟩, ⟨"search_path", "string"⟩], ["query"]⟩,
    ⟨"organize_files_by_extension", "Sort files in a folder into subfolders by type.",
      [⟨"path", "string"⟩], ["path"]⟩,
    ⟨"read_file", "Read text from a file.",
      [⟨"path", "string"⟩], ["path"]⟩,
    ⟨"write_to_file", "Overwrite file content.",
      [⟨"path", "string"⟩, ⟨"content", "string"⟩], ["path", "content"]⟩,
    ⟨"append_to_file", "Append content to a file.",
      [⟨"path", "string"⟩, ⟨"content", "string"⟩], ["path", "content"]⟩,
    ⟨"zip_folder", "Compress folder to zip.",
      [⟨"folder_path", "string"⟩, ⟨"output_path", "string"⟩], ["folder_path", "output_path"]⟩,
    ⟨"extract_archive", "Unzip an archive.",
      [⟨"archive_path", "string"⟩, ⟨"output_path", "string"⟩], ["archive_path", "output_path"]⟩,
    ⟨"check_resources", "Check CPU and RAM usage.", [], []⟩,
    ⟨"disk_usage", "Check free space on drives.", [], []⟩,
    ⟨"list_processes", "List top memory consuming processes.", [], []⟩,
    ⟨"find_duplicates", "Find duplicate files in a folder.",
      [⟨"folder_path", "string"⟩], ["folder_path"]⟩,
    ⟨"find_large_files", "Find files larger than threshold MB.",
      [⟨"folder_path", "string"⟩, ⟨"size_mb_threshold", "integer"⟩],
      ["folder_path", "size_mb_threshold"]⟩,
    ⟨"git_manager", "Manage git repo (init, add, commit, push).",
      [⟨"repo_path", "string"⟩, ⟨"remote_url", "string"⟩, ⟨"commit_message", "string"⟩],
      ["repo_path"]⟩ ]

/-- The capability names the Registry advertises. -/
def catalogNames : List String := TOOLS_SCHEMA.map (·.name)

/-! ## The backend module's global namespace (src/backend.py lines 1-53) -/

/-- The 22 functions `from tools import ...` brings into the backend
module (src/backend.py lines 5-15). `manage_files`, defined in
src/tools.py, is NOT among them. -/
def backendToolFunctionNames : List String :=
  [ "create_file", "delete_file", "rename_file", "get_file_info",
    "make_directory", "list_directory", "is_directory",
    "search_files", "organize_files_by_extension",
    "move_file", "copy_file",
    "read_file", "write_to_file", "append_to_file",
    "zip_folder", "extract_archive",
    "check_resources", "disk_usage", "list_processes",
    "find_duplicates", "find_large_files",
    "git_manager" ]

/-- The names bound at module level in src/backend.py, hence the domain of
`globals()` as consulted by the dispatch block: the imported modules `os`
and `json`, the four names imported from `typing`, `OpenAI`, the 22 tool
functions, `TOOLS_SCHEMA` and the `RobotBackend` class. (Interpreter
dunder entries such as `__name__` are left out; no capability name of
interest collides with them.) -/
def backendGlobalNames : List String :=
  ["os", "json", "List", "Dict", "Any", "Generator", "OpenAI"] ++
    backendToolFunctionNames ++ ["TOOLS_SCHEMA", "RobotBackend"]

/-- The backend module's global namespace, parameterized by the call
behavior `impls` of its callable members: `os` and `json` are module
objects (not callable), `TOOLS_SCHEMA` is a list (not callable), every
other module-level name is a callable object whose call behavior is
`impls name`. -/
def backendGlobals (impls : String → Args → Except String String) :
    String → Option PyGlobal := fun name =>
  if name = "os" ∨ name = "json" then some (.nonCallable "module")
  else if name = "TOOLS_SCHEMA" then some (.nonCallable "list")
  else if name ∈ backendGlobalNames then some (.callable (impls name))
  else none

/-! ## Filesystem model and the tools the claims exercise (src/tools.py) -/

/-- A filesystem entry: a text file with its content, or a directory. -/
inductive FSEntry where
  | file (content : String)
  | dir
deriving DecidableEq, Repr

/-- Filesystem state: the user's home directory, the working directory
(both absolute), and the existing entries keyed by absolute path. -/
structure FS where
  home : String
  cwd : String
  entries : List (String × FSEntry)
deriving DecidableEq, Repr

/-- The entry at an absolute path, if any. -/
def FS.lookup (fs : FS) (p : String) : Option FSEntry :=
  (fs.entries.find? (fun e => e.1 = p)).map (·.2)

/-- `Path.exists()` on an absolute path. -/
def FS.pathExists (fs : FS) (p : String) : Bool :=
  (fs.lookup p).isSome

/-- `Path.is_dir()` on an absolute path. -/
def FS.isDir (fs : FS) (p : String) : Bool :=
  fs.lookup p = some .dir

/-- The `common_dirs` synonym table of `_resolve_path`
(src/tools.py lines 20-27). -/
def common_dirs : List (String × String) :=
  [ ("downloads", "Downloads"), ("documents", "Documents"),
    ("desktop", "Desktop"), ("music", "Music"),
    ("pictures", "Pictures"), ("videos", "Videos") ]

/-- ASCII `str.lower` on one character (the paths the repository handles
are ASCII). -/
def lowerChar (c : Char) : Char :=
  if 65 ≤ c.toNat ∧ c.toNat ≤ 90 then Char.ofNat (c.toNat + 32) else c

/-- Python's `str.lower()` (ASCII range). -/
def pyLower (s : String) : String := ⟨s.data.map lowerChar⟩

/-- ASCII whitespace, as `str.strip()` removes. -/
def isPyWhitespace (c : Char) : Bool :=
  c.toNat = 32 ∨ c.toNat = 9 ∨ c.toNat = 10 ∨ c.toNat = 13

/-- Python's `str.strip()`: drop leading and trailing whitespace. -/
def pyStrip (s : String) : String :=
  ⟨((s.data.dropWhile isPyWhitespace).reverse.dropWhile isPyWhitespace).reverse⟩

/-- POSIX-style `Path.is_absolute()`: the path begins with the
separator. -/
def isAbsolutePath (p : String) : Bool :=
  match p.data with
  | '/' :: _ => true
  | _ => false

/-- `Path(a) / b`. -/
def joinPath (a b : String) : String := a ++ "/" ++ b

/-- `_resolve_path` (src/tools.py lines 17-39): strip and lowercase the
input; a common-directory synonym maps to that folder under home; a
relative path whose home-variant exists resolves there; otherwise
`p.resolve()` is modelled as the path itself when absolute, else joined to
the working directory (normalization of `.`/`..` segments and symlinks is
not modelled; no claim exercises it). -/
def _resolve_path (fs : FS) (path_str : String) : String :=
  let clean_path := pyLower (pyStrip path_str)
  match common_dirs.find? (fun e => e.1 = clean_path) with
  | some e => joinPath fs.home e.2
  | none =>
    if isAbsolutePath path_str then
      path_str
    else
      let home_variant := joinPath fs.home path_str
      if fs.pathExists home_variant then home_variant
      else joinPath fs.cwd path_str

/-- The proper ancestor directories of an absolute path, shortest first:
for "/a/b/c.txt" these are "/a" and "/a/b". -/
def ancestorDirs (p : String) : List String :=
  let parts := (p.splitOn "/").filter (fun s => s ≠ "")
  ((List.range parts.length).drop 1).map
    (fun k => "/" ++ String.intercalate "/" (parts.take k))

/-- `p.parent.mkdir(parents=True, exist_ok=True)`: add a directory entry
for each missing ancestor of `p`. (Python raises when an ancestor exists
as a regular file; no claim exercises that corner, so it is not
modelled.) -/
def mkdirParents (fs : FS) (p : String) : FS :=
  { fs with
    entries := (ancestorDirs p).foldl
      (fun es d => if (es.find? (fun e => e.1 = d)).isSome then es else es ++ [(d, .dir)])
      fs.entries }

/-- `create_file` (src/tools.py lines 43-53): resolve the path; if it
exists return the already-exists error and change nothing; otherwise make
the parent directories, write the file and return the created message.
(OS-level failures of `mkdir`/`write_text`, which the source converts to
"Error creating file: ...", are not modelled: the model's filesystem
operations cannot fail.) -/
def create_file (fs : FS) (path : String) (content : String := "") : FS × String :=
  let p := _resolve_path fs path
  if fs.pathExists p then
    (fs, "Error: File " ++ path ++ " already exists.")
  else
    let fs1 := mkdirParents fs p
    ({ fs1 with entries := fs1.entries ++ [(p, .file content)] },
     "File created: " ++ path)

/-- `write_to_file` (src/tools.py lines 236-238): despite the catalog's
"Overwrite file content." description it simply delegates to
`create_file` ("same logic" per the source comment). -/
def write_to_file (fs : FS) (path : String) (content : String) : FS × String :=
  create_file fs path content

/-- `is_directory` (src/tools.py lines 135-141): `str(p.is_dir())`. The
except-branch ("Error checking type: ...") is unreachable in the model,
where resolution cannot raise. -/
def is_directory (fs : FS) (path : String) : String :=
  let p := _resolve_path fs path
  if fs.isDir p then "True" else "False"

/-- Keyword-argument adapter for `is_directory`, for use as the call
behavior of the corresponding backend global: `func(**args)` passes the
parsed payload as keyword arguments, and a missing required argument
raises a TypeError. -/
def is_directory_kw (fs : FS) (args : Args) : Except String String :=
  match args.find? (fun e => e.1 = "path") with
  | some e => .ok (is_directory fs e.2)
  | none => .error "is_directory() missing 1 required positional argument: path"

/-! ## Concrete stand-ins for the external collaborators, used by the
closed witness and counterexample theorems -/

/-- A deterministic stub model client: the catalog-offered call returns
`first`, the synthesis call returns `second`. -/
def stubClient (first second : Except String ChatMessage) : Client :=
  fun _ withTools => if withTools then first else second

/-- A stub of `json.loads` at the concrete payload texts the examples use:
"ok" parses to an empty keyword dict, "path-demo" to a single `path`
argument, and every other text fails to parse (with CPython's message for
a non-JSON payload). -/
def jsonLoadsStub : String → Except String Args := fun s =>
  if s = "ok" then .ok []
  else if s = "path-demo" then .ok [("path", "demo")]
  else .error "Expecting value: line 1 column 1 (char 0)"

/-- An empty global namespace (no name resolves). -/
def gStubNone : String → Option PyGlobal := fun _ => none

/-- A demo filesystem: home and working directory with no entries. -/
def demoFS : FS := ⟨"/home/user", "/home/user", []⟩

/-- Demo call behaviors for the backend globals: `is_directory` runs its
filesystem embedding against `demoFS`; every other callable returns the
empty text (no theorem evaluates those). -/
def demoImpls : String → Args → Except String String := fun name =>
  if name = "is_directory" then is_directory_kw demoFS
  else fun _ => .ok ""

/-- The parsed arguments `jsonLoadsStub` yields per demo tool call, as a
function of the call (the form the batch lemmas take). -/
def jsonArgsDemo : ToolCall → Args := fun tc =>
  if tc.arguments = "path-demo" then [("path", "demo")] else []

/-! ## Helper lemmas about the dispatch loop and `chat_step` -/

/-- The tool-result turns a fully successful batch appends, given the
parsed arguments of each call. -/
def batchResults (G : String → Option PyGlobal) (argsF : ToolCall → Args)
    (calls : List ToolCall) : List Turn :=
  calls.map (fun tc => Turn.toolResult tc.id tc.name (dispatch G tc.name (argsF tc)))

/-- The Running/Completed status events a fully executed batch yields. -/
def statusEvents (calls : List ToolCall) : List Event :=
  calls.flatMap (fun tc =>
    [Event.status ("Running " ++ tc.name ++ "..."),
     Event.status ("Completed " ++ tc.name ++ ".")])

theorem runToolCalls_all_ok (jsonLoads : String → Except String Args)
    (G : String → Option PyGlobal) (argsF : ToolCall → Args) :
    ∀ calls : List ToolCall, (∀ tc ∈ calls, jsonLoads tc.arguments = .ok (argsF tc)) →
      runToolCalls jsonLoads G calls = (batchResults G argsF calls, statusEvents calls, none) := by
  intro calls h
  induction calls with
  | nil => rfl
  | cons tc rest ih =>
    have h1 : jsonLoads tc.arguments = .ok (argsF tc) := h tc (by simp)
    have h2 : ∀ t ∈ rest, jsonLoads t.arguments = .ok (argsF t) :=
      fun t ht => h t (by simp [ht])
    simp [runToolCalls, h1, ih h2, batchResults, statusEvents]

theorem runToolCalls_aborts (jsonLoads : String → Except String Args)
    (G : String → Option PyGlobal) (argsF : ToolCall → Args)
    (bad : ToolCall) (e : String) (rest : List ToolCall)
    (hbad : jsonLoads bad.arguments = .error e) :
    ∀ good : List ToolCall, (∀ tc ∈ good, jsonLoads tc.arguments = .ok (argsF tc)) →
      runToolCalls jsonLoads G (good ++ bad :: rest) =
        (batchResults G argsF good, statusEvents good, some e) := by
  intro good h
  induction good with
  | nil => simp [runToolCalls, hbad, batchResults, statusEvents]
  | cons tc tl ih =>
    have h1 : jsonLoads tc.arguments = .ok (argsF tc) := h tc (by simp)
    have h2 : ∀ t ∈ tl, jsonLoads t.arguments = .ok (argsF t) :=
      fun t ht => h t (by simp [ht])
    simp [runToolCalls, h1, ih h2, batchResults, statusEvents]

/-- All events the dispatch loop yields are status events. -/
theorem runToolCalls_events_status (jsonLoads : String → Except String Args)
    (G : String → Option PyGlobal) :
    ∀ calls : List ToolCall, ∃ ss : List String,
      (runToolCalls jsonLoads G calls).2.1 = ss.map Event.status := by
  intro calls
  induction calls with
  | nil => exact ⟨[], rfl⟩
  | cons tc rest ih =>
    obtain ⟨ss, hss⟩ := ih
    unfold runToolCalls
    cases hj : jsonLoads tc.arguments with
    | error e => exact ⟨[], rfl⟩
    | ok args =>
      refine ⟨("Running " ++ tc.name ++ "...") :: ("Completed " ++ tc.name ++ ".") :: ss, ?_⟩
      simp [hss]

/-- `chat_step` when the first model call raises. -/
theorem chat_step_client_error (client : Client) (jsonLoads : String → Except String Args)
    (G : String → Option PyGlobal) (history : List Turn) (ui e : String)
    (hc : client (history ++ [Turn.user ui]) true = .error e) :
    chat_step client jsonLoads G history ui =
      ⟨history ++ [Turn.user ui], [Event.content (some ("Error: " ++ e))], [true]⟩ := by
  unfold chat_step
  rw [hc]

/-- `chat_step` when the first model call returns a plain message. -/
theorem chat_step_no_tools (client : Client) (jsonLoads : String → Except String Args)
    (G : String → Option PyGlobal) (history : List Turn) (ui : String) (msg : ChatMessage)
    (hc : client (history ++ [Turn.user ui]) true = .ok msg)
    (h0 : msg.tool_calls = []) :
    chat_step client jsonLoads G history ui =
      ⟨history ++ [Turn.user ui, Turn.assistant msg.content],
       [Event.content msg.content], [true]⟩ := by
  unfold chat_step
  rw [hc]
  simp [h0]

/-- `chat_step` on a batch whose arguments all parse, when the synthesis
call returns a message. -/
theorem chat_step_batch_synth_ok (client : Client) (jsonLoads : String → Except String Args)
    (G : String → Option PyGlobal) (history : List Turn) (ui : String)
    (msg msg2 : ChatMessage) (argsF : ToolCall → Args)
    (hc : client (history ++ [Turn.user ui]) true = .ok msg)
    (hne : msg.tool_calls ≠ [])
    (hparse : ∀ tc ∈ msg.tool_calls, jsonLoads tc.arguments = .ok (argsF tc))
    (hc2 : client (history ++ [Turn.user ui, Turn.assistantMsg msg.content msg.tool_calls]
        ++ batchResults G argsF msg.tool_calls) false = .ok msg2) :
    chat_step client jsonLoads G history ui =
      ⟨history ++ [Turn.user ui, Turn.assistantMsg msg.content msg.tool_calls]
          ++ batchResults G argsF msg.tool_calls ++ [Turn.assistant msg2.content],
       statusEvents msg.tool_calls ++ [Event.content msg2.content], [true, false]⟩ := by
  have hrun := runToolCalls_all_ok jsonLoads G argsF msg.tool_calls hparse
  unfold chat_step
  rw [hc]
  simp only [if_neg hne, hrun, hc2]

/-- `chat_step` on a batch whose arguments all parse, when the synthesis
call raises. -/
theorem chat_step_batch_synth_error (client : Client) (jsonLoads : String → Except String Args)
    (G : String → Option PyGlobal) (history : List Turn) (ui : String)
    (msg : ChatMessage) (e : String) (argsF : ToolCall → Args)
    (hc : client (history ++ [Turn.user ui]) true = .ok msg)
    (hne : msg.tool_calls ≠ [])
    (hparse : ∀ tc ∈ msg.tool_calls, jsonLoads tc.arguments = .ok (argsF tc))
    (hc2 : client (history ++ [Turn.user ui, Turn.assistantMsg msg.content msg.tool_calls]
        ++ batchResults G argsF msg.tool_calls) false = .error e) :
    chat_step client jsonLoads G history ui =
      ⟨history ++ [Turn.user ui, Turn.assistantMsg msg.content msg.tool_calls]
          ++ batchResults G argsF msg.tool_calls,
       statusEvents msg.tool_calls ++ [Event.content (some ("Error: " ++ e))],
       [true, false]⟩ := by
  have hrun := runToolCalls_all_ok jsonLoads G argsF msg.tool_calls hparse
  unfold chat_step
  rw [hc]
  simp only [if_neg hne, hrun, hc2]

/-- `chat_step` on a batch in which some call's arguments fail to parse:
the `json.loads` failure escapes to the outer handler, the turn aborts. -/
theorem chat_step_batch_parse_error (client : Client) (jsonLoads : String → Except String Args)
    (G : String → Option PyGlobal) (history : List Turn) (ui : String)
    (msg : ChatMessage) (argsF : ToolCall → Args)
    (good : List ToolCall) (bad : ToolCall) (rest : List ToolCall) (e : String)
    (hc : client (history ++ [Turn.user ui]) true = .ok msg)
    (hcalls : msg.tool_calls = good ++ bad :: rest)
    (hgood : ∀ tc ∈ good, jsonLoads tc.arguments = .ok (argsF tc))
    (hbad : jsonLoads bad.arguments = .error e) :
    chat_step client jsonLoads G history ui =
      ⟨history ++ [Turn.user ui, Turn.assistantMsg msg.content msg.tool_calls]
          ++ batchResults G argsF good,
       statusEvents good ++ [Event.content (some ("Error: " ++ e))], [true]⟩ := by
  have hne : msg.tool_calls ≠ [] := by simp [hcalls]
  have hrun := runToolCalls_aborts jsonLoads G argsF bad e rest hbad good hgood
  rw [← hcalls] at hrun
  unfold chat_step
  rw [hc]
  simp only [if_neg hne, hrun]

/-- Every `chat_step` run leaves the prior history as a strict prefix: the
result is the prior history followed by a nonempty suffix that begins with
the new user turn. -/
theorem chat_step_appends (client : Client) (jsonLoads : String → Except String Args)
    (G : String → Option PyGlobal) (history : List Turn) (ui : String) :
    ∃ d : List Turn,
      (chat_step client jsonLoads G history ui).history = history ++ (Turn.user ui :: d) := by
  unfold chat_step
  cases hc : client (history ++ [Turn.user ui]) true with
  | error e => exact ⟨[], rfl⟩
  | ok msg =>
    by_cases h0 : msg.tool_calls = []
    · exact ⟨[Turn.assistant msg.content], by simp [h0]⟩
    · simp only [if_neg h0]
      rcases hrun : runToolCalls jsonLoads G msg.tool_calls with ⟨ts, evs, err⟩
      cases err with
      | some e =>
        exact ⟨Turn.assistantMsg msg.content msg.tool_calls :: ts, by simp⟩
      | none =>
        cases hc2 : client (history ++ [Turn.user ui, Turn.assistantMsg msg.content msg.tool_calls]
            ++ ts) false with
        | error e =>
          refine ⟨Turn.assistantMsg msg.content msg.tool_calls :: ts, ?_⟩
          simp only [List.append_assoc, List.cons_append, List.nil_append] at hc2
          simp [hc2]
        | ok msg2 =>
          refine ⟨Turn.assistantMsg msg.content msg.tool_calls ::
            (ts ++ [Turn.assistant msg2.content]), ?_⟩
          simp only [List.append_assoc, List.cons_append, List.nil_append] at hc2
          simp [hc2]

/-- Iterating the session leaves the starting history as a prefix. -/
theorem runSession_extends (client : Client) (jsonLoads : String → Except String Args)
    (G : String → Option PyGlobal) :
    ∀ (inputs : List String) (h : List Turn),
      ∃ d : List Turn, runSession client jsonLoads G inputs h = h ++ d := by
  intro inputs
  induction inputs with
  | nil => exact fun h => ⟨[], by simp [runSession]⟩
  | cons ui rest ih =>
    intro h
    obtain ⟨d1, hd1⟩ := chat_step_appends client jsonLoads G h ui
    obtain ⟨d2, hd2⟩ := ih (chat_step client jsonLoads G h ui).history
    refine ⟨(Turn.user ui :: d1) ++ d2, ?_⟩
    simp only [runSession]
    rw [hd2, hd1]
    simp

/-- A name bound in the backend module resolves to some global object. -/
theorem backendGlobals_mem (impls : String → Args → Except String String)
    (name : String) (h : name ∈ backendGlobalNames) :
    ∃ g : PyGlobal, backendGlobals impls name = some g := by
  unfold backendGlobals
  split_ifs with h1 h2
  · exact ⟨.nonCallable "module", rfl⟩
  · exact ⟨.nonCallable "list", rfl⟩
  · exact ⟨.callable (impls name), rfl⟩

/-- A name not bound in the backend module resolves to nothing. -/
theorem backendGlobals_not_mem (impls : String → Args → Except String String)
    (name : String) (h : name ∉ backendGlobalNames) :
    backendGlobals impls name = none := by
  unfold backendGlobals
  have h1 : ¬(name = "os" ∨ name = "json") := by
    rintro (rfl | rfl) <;> exact h (by decide)
  have h2 : name ≠ "TOOLS_SCHEMA" := by
    rintro rfl; exact h (by decide)
  simp [h1, h2, h]

/-! ## Claim C1 -/

/-- C1, refuted as stated: a single-invocation batch whose rawArguments
payload "bad" fails to parse. Contrary to the claim, NO ToolResult turn is
appended (the history's tool-result filter is empty), the turn does not
proceed to synthesis (only one model call, the catalog-offered one, is
made), and the only event is the outer handler's single Content error
event. -/
theorem C1_counterexample :
    chat_step (stubClient (.ok ⟨none, [⟨"call_1", "create_file", "bad"⟩]⟩)
        (.ok ⟨some "done", []⟩)) jsonLoadsStub gStubNone initialHistory "make a file" =
      ⟨[Turn.system systemPrompt, Turn.user "make a file",
        Turn.assistantMsg none [⟨"call_1", "create_file", "bad"⟩]],
       [Event.content (some "Error: Expecting value: line 1 column 1 (char 0)")],
       [true]⟩ ∧
    (chat_step (stubClient (.ok ⟨none, [⟨"call_1", "create_file", "bad"⟩]⟩)
        (.ok ⟨some "done", []⟩)) jsonLoadsStub gStubNone initialHistory
        "make a file").history.filter Turn.isToolResult = [] ∧
    (chat_step (stubClient (.ok ⟨none, [⟨"call_1", "create_file", "bad"⟩]⟩)
        (.ok ⟨some "done", []⟩)) jsonLoadsStub gStubNone initialHistory
        "make a file").modelCalls = [true] :=
  ⟨rfl, rfl, rfl⟩

/-- C1 as amended: for every model-issued invocation whose rawArguments
payload is malformed, the parse failure escapes the dispatch step to the
turn-level handler: the user turn aborts with a single Content event
describing the parse failure; no ToolResult turn is appended for the
malformed invocation or any later one (earlier invocations' ToolResult
turns are retained), and the synthesis call is not made. -/
theorem C1_malformed_arguments_abort_turn (client : Client)
    (jsonLoads : String → Except String Args) (G : String → Option PyGlobal)
    (history : List Turn) (ui : String) (msg : ChatMessage) (argsF : ToolCall → Args)
    (good : List ToolCall) (bad : ToolCall) (rest : List ToolCall) (e : String)
    (hc : client (history ++ [Turn.user ui]) true = .ok msg)
    (hcalls : msg.tool_calls = good ++ bad :: rest)
    (hgood : ∀ tc ∈ good, jsonLoads tc.arguments = .ok (argsF tc))
    (hbad : jsonLoads bad.arguments = .error e) :
    chat_step client jsonLoads G history ui =
      ⟨history ++ [Turn.user ui, Turn.assistantMsg msg.content msg.tool_calls]
          ++ batchResults G argsF good,
       statusEvents good ++ [Event.content (some ("Error: " ++ e))], [true]⟩ :=
  chat_step_batch_parse_error client jsonLoads G history ui msg argsF good bad rest e
    hc hcalls hgood hbad

/-- Witness for C1's amended theorem at a concrete two-invocation batch:
the first payload parses, the second does not; the turn aborts after the
first invocation's ToolResult. -/
theorem C1_malformed_arguments_abort_turn_witness :
    chat_step (stubClient (.ok ⟨none, [⟨"w1", "check_resources", "ok"⟩,
          ⟨"w2", "disk_usage", "nonsense"⟩]⟩) (.ok ⟨some "done", []⟩))
        jsonLoadsStub gStubNone initialHistory "health check" =
      ⟨initialHistory ++ [Turn.user "health check",
          Turn.assistantMsg none [⟨"w1", "check_resources", "ok"⟩, ⟨"w2", "disk_usage", "nonsense"⟩]]
          ++ batchResults gStubNone (fun _ => []) [⟨"w1", "check_resources", "ok"⟩],
       statusEvents [⟨"w1", "check_resources", "ok"⟩]
          ++ [Event.content (some ("Error: " ++ "Expecting value: line 1 column 1 (char 0)"))],
       [true]⟩ :=
  C1_malformed_arguments_abort_turn
    (stubClient (.ok ⟨none, [⟨"w1", "check_resources", "ok"⟩, ⟨"w2", "disk_usage", "nonsense"⟩]⟩)
      (.ok ⟨some "done", []⟩))
    jsonLoadsStub gStubNone initialHistory "health check"
    ⟨none, [⟨"w1", "check_resources", "ok"⟩, ⟨"w2", "disk_usage", "nonsense"⟩]⟩
    (fun _ => []) [⟨"w1", "check_resources", "ok"⟩] ⟨"w2", "disk_usage", "nonsense"⟩ []
    "Expecting value: line 1 column 1 (char 0)"
    rfl rfl (by intro tc htc; simp at htc; subst htc; rfl) rfl

/-! ## Claim C2 -/

/-- C2, refuted as stated: the model issues a batch of length 2, but the
second payload "oops" is malformed, so only 1 ToolResult turn is ever
appended — not exactly n = 2. -/
theorem C2_counterexample :
    (stubClient (.ok ⟨none, [⟨"a1", "check_resources", "ok"⟩, ⟨"a2", "list_processes", "oops"⟩]⟩)
        (.ok ⟨some "summary", []⟩) (initialHistory ++ [Turn.user "status"]) true =
      .ok ⟨none, [⟨"a1", "check_resources", "ok"⟩, ⟨"a2", "list_processes", "oops"⟩]⟩) ∧
    ((chat_step (stubClient (.ok ⟨none, [⟨"a1", "check_resources", "ok"⟩,
          ⟨"a2", "list_processes", "oops"⟩]⟩) (.ok ⟨some "summary", []⟩))
        jsonLoadsStub gStubNone initialHistory "status").history.filter
          Turn.isToolResult).length = 1 :=
  ⟨rfl, rfl⟩

/-- C2 as amended: for every invocation batch all of whose rawArguments
payloads parse, exactly n ToolResult turns are appended, in the order the
invocations were issued, each produced by its own dispatch step (the
dispatch loop appends each result before touching the next invocation) and
each carrying the id of its originating invocation; nothing appended after
them is a ToolResult turn. -/
theorem C2_batch_toolresults (client : Client)
    (jsonLoads : String → Except String Args) (G : String → Option PyGlobal)
    (history : List Turn) (ui : String) (msg : ChatMessage) (argsF : ToolCall → Args)
    (hc : client (history ++ [Turn.user ui]) true = .ok msg)
    (hne : msg.tool_calls ≠ [])
    (hparse : ∀ tc ∈ msg.tool_calls, jsonLoads tc.arguments = .ok (argsF tc)) :
    ∃ tail : List Turn,
      (chat_step client jsonLoads G history ui).history =
        history ++ [Turn.user ui, Turn.assistantMsg msg.content msg.tool_calls]
          ++ (msg.tool_calls.map (fun tc =>
                Turn.toolResult tc.id tc.name (dispatch G tc.name (argsF tc))))
          ++ tail ∧
      (∀ u ∈ tail, u.isToolResult = false) := by
  rcases hsynth : client (history ++ [Turn.user ui, Turn.assistantMsg msg.content msg.tool_calls]
      ++ batchResults G argsF msg.tool_calls) false with e | msg2
  · rw [chat_step_batch_synth_error client jsonLoads G history ui msg e argsF
      hc hne hparse hsynth]
    exact ⟨[], by simp [batchResults], by simp⟩
  · rw [chat_step_batch_synth_ok client jsonLoads G history ui msg msg2 argsF
      hc hne hparse hsynth]
    exact ⟨[Turn.assistant msg2.content], by simp [batchResults],
      by simp [Turn.isToolResult]⟩

/-- Witness for C2's amended theorem at a concrete two-invocation batch
whose payloads both parse. -/
theorem C2_batch_toolresults_witness :
    ∃ tail : List Turn,
      (chat_step (stubClient (.ok ⟨none, [⟨"b1", "check_resources", "ok"⟩,
            ⟨"b2", "is_directory", "path-demo"⟩]⟩) (.ok ⟨some "summary", []⟩))
          jsonLoadsStub (backendGlobals demoImpls) initialHistory "two steps").history =
        initialHistory ++ [Turn.user "two steps",
            Turn.assistantMsg none [⟨"b1", "check_resources", "ok"⟩, ⟨"b2", "is_directory", "path-demo"⟩]]
          ++ ([⟨"b1", "check_resources", "ok"⟩, ⟨"b2", "is_directory", "path-demo"⟩].map
                (fun tc => Turn.toolResult tc.id tc.name
                  (dispatch (backendGlobals demoImpls) tc.name
                    (jsonArgsDemo tc))))
          ++ tail ∧
      (∀ u ∈ tail, u.isToolResult = false) :=
  C2_batch_toolresults
    (stubClient (.ok ⟨none, [⟨"b1", "check_resources", "ok"⟩, ⟨"b2", "is_directory", "path-demo"⟩]⟩)
      (.ok ⟨some "summary", []⟩))
    jsonLoadsStub (backendGlobals demoImpls) initialHistory "two steps"
    ⟨none, [⟨"b1", "check_resources", "ok"⟩, ⟨"b2", "is_directory", "path-demo"⟩]⟩
    jsonArgsDemo rfl (by simp)
    (by intro tc htc; simp at htc
        rcases htc with h | h <;> subst h <;> rfl)

/-! ## Claim C3 -/

/-- C3, refuted as stated: `is_directory` is absent from the advertised
catalog, yet the Dispatcher does not report it as not implemented — the
name is resolved through the module globals and the function runs,
producing "False" for a non-directory path. -/
theorem C3_counterexample :
    "is_directory" ∉ catalogNames ∧
    dispatch (backendGlobals demoImpls) "is_directory" [("path", "demo")] = "False" ∧
    dispatch (backendGlobals demoImpls) "is_directory" [("path", "demo")] ≠
      "Error: Function is_directory not implemented." :=
  ⟨by decide, rfl, by decide⟩

/-- C3 as amended: for every invocation whose capabilityName is absent
from the BACKEND MODULE'S GLOBALS (the set the dispatch block actually
consults — not the catalog), the Dispatcher produces the not-implemented
text, that text is appended as the invocation's ToolResult turn, no
exception escapes the dispatch step, and the loop still proceeds to the
synthesis call (a second model call, without the catalog, is made). -/
theorem C3_unknown_capability (impls : String → Args → Except String String)
    (client : Client) (jsonLoads : String → Except String Args)
    (history : List Turn) (ui : String) (msg : ChatMessage) (argsF : ToolCall → Args)
    (tc : ToolCall)
    (hc : client (history ++ [Turn.user ui]) true = .ok msg)
    (hne : msg.tool_calls ≠ [])
    (hparse : ∀ c ∈ msg.tool_calls, jsonLoads c.arguments = .ok (argsF c))
    (htc : tc ∈ msg.tool_calls)
    (hname : tc.name ∉ backendGlobalNames) :
    dispatch (backendGlobals impls) tc.name (argsF tc) =
      "Error: Function " ++ tc.name ++ " not implemented." ∧
    Turn.toolResult tc.id tc.name ("Error: Function " ++ tc.name ++ " not implemented.")
      ∈ (chat_step client jsonLoads (backendGlobals impls) history ui).history ∧
    (chat_step client jsonLoads (backendGlobals impls) history ui).modelCalls =
      [true, false] := by
  have hdisp : dispatch (backendGlobals impls) tc.name (argsF tc) =
      "Error: Function " ++ tc.name ++ " not implemented." := by
    simp [dispatch, backendGlobals_not_mem impls tc.name hname]
  have hmem0 : Turn.toolResult tc.id tc.name
      ("Error: Function " ++ tc.name ++ " not implemented.")
      ∈ batchResults (backendGlobals impls) argsF msg.tool_calls :=
    List.mem_map.mpr ⟨tc, htc, by rw [hdisp]⟩
  refine ⟨hdisp, ?_⟩
  rcases hsynth : client (history ++ [Turn.user ui, Turn.assistantMsg msg.content msg.tool_calls]
      ++ batchResults (backendGlobals impls) argsF msg.tool_calls) false with e | msg2
  · rw [chat_step_batch_synth_error client jsonLoads (backendGlobals impls) history ui msg e argsF
      hc hne hparse hsynth]
    exact ⟨List.mem_append_right _ hmem0, rfl⟩
  · rw [chat_step_batch_synth_ok client jsonLoads (backendGlobals impls) history ui msg msg2 argsF
      hc hne hparse hsynth]
    exact ⟨List.mem_append_left _ (List.mem_append_right _ hmem0), rfl⟩

/-- Witness for C3's amended theorem: the spec's Scenario 2, a batch
naming "frobnicate", which is in neither the catalog nor the backend
globals. -/
theorem C3_unknown_capability_witness :
    dispatch (backendGlobals demoImpls) "frobnicate" [] =
      "Error: Function " ++ "frobnicate" ++ " not implemented." ∧
    Turn.toolResult "f1" "frobnicate" ("Error: Function " ++ "frobnicate" ++ " not implemented.")
      ∈ (chat_step (stubClient (.ok ⟨none, [⟨"f1", "frobnicate", "ok"⟩]⟩)
          (.ok ⟨some "explained", []⟩)) jsonLoadsStub (backendGlobals demoImpls)
          initialHistory "please frobnicate").history ∧
    (chat_step (stubClient (.ok ⟨none, [⟨"f1", "frobnicate", "ok"⟩]⟩)
        (.ok ⟨some "explained", []⟩)) jsonLoadsStub (backendGlobals demoImpls)
        initialHistory "please frobnicate").modelCalls = [true, false] :=
  C3_unknown_capability demoImpls
    (stubClient (.ok ⟨none, [⟨"f1", "frobnicate", "ok"⟩]⟩) (.ok ⟨some "explained", []⟩))
    jsonLoadsStub initialHistory "please frobnicate"
    ⟨none, [⟨"f1", "frobnicate", "ok"⟩]⟩ (fun _ => []) ⟨"f1", "frobnicate", "ok"⟩
    rfl (by simp) (by intro c hcm; simp at hcm; subst hcm; rfl) (by simp) (by decide)

/-! ## Claim C4 -/

/-- C4, confirmed: a handler that raises during execution is caught at the
dispatch boundary, its failure text becomes the "Execution Error: <detail>"
result, that result is appended as the invocation's ToolResult turn, and
the turn continues to the synthesis call (the exception never reaches the
orchestration loop: `dispatch` is a total function into result text). -/
theorem C4_handler_failure (client : Client) (jsonLoads : String → Except String Args)
    (G : String → Option PyGlobal) (history : List Turn) (ui : String)
    (msg : ChatMessage) (argsF : ToolCall → Args) (tc : ToolCall)
    (f : Args → Except String String) (e : String)
    (hg : G tc.name = some (.callable f))
    (hf : f (argsF tc) = .error e)
    (hc : client (history ++ [Turn.user ui]) true = .ok msg)
    (hne : msg.tool_calls ≠ [])
    (hparse : ∀ c ∈ msg.tool_calls, jsonLoads c.arguments = .ok (argsF c))
    (htc : tc ∈ msg.tool_calls) :
    dispatch G tc.name (argsF tc) = "Execution Error: " ++ e ∧
    Turn.toolResult tc.id tc.name ("Execution Error: " ++ e)
      ∈ (chat_step client jsonLoads G history ui).history ∧
    (chat_step client jsonLoads G history ui).modelCalls = [true, false] := by
  have hdisp : dispatch G tc.name (argsF tc) = "Execution Error: " ++ e := by
    simp [dispatch, hg, callGlobal, hf, execResultText]
  have hmem0 : Turn.toolResult tc.id tc.name ("Execution Error: " ++ e)
      ∈ batchResults G argsF msg.tool_calls :=
    List.mem_map.mpr ⟨tc, htc, by rw [hdisp]⟩
  refine ⟨hdisp, ?_⟩
  rcases hsynth : client (history ++ [Turn.user ui, Turn.assistantMsg msg.content msg.tool_calls]
      ++ batchResults G argsF msg.tool_calls) false with e2 | msg2
  · rw [chat_step_batch_synth_error client jsonLoads G history ui msg e2 argsF
      hc hne hparse hsynth]
    exact ⟨List.mem_append_right _ hmem0, rfl⟩
  · rw [chat_step_batch_synth_ok client jsonLoads G history ui msg msg2 argsF
      hc hne hparse hsynth]
    exact ⟨List.mem_append_left _ (List.mem_append_right _ hmem0), rfl⟩

/-- A global namespace for C4's witness: `delete_file` is a callable whose
execution raises. -/
def gRaising : String → Option PyGlobal := fun name =>
  if name = "delete_file" then
    some (.callable (fun _ => .error "Permission denied"))
  else none

/-- Witness for C4 at a concrete raising handler. -/
theorem C4_handler_failure_witness :
    dispatch gRaising "delete_file" [] = "Execution Error: " ++ "Permission denied" ∧
    Turn.toolResult "d1" "delete_file" ("Execution Error: " ++ "Permission denied")
      ∈ (chat_step (stubClient (.ok ⟨none, [⟨"d1", "delete_file", "ok"⟩]⟩)
          (.ok ⟨some "sorry", []⟩)) jsonLoadsStub gRaising
          initialHistory "delete it").history ∧
    (chat_step (stubClient (.ok ⟨none, [⟨"d1", "delete_file", "ok"⟩]⟩)
        (.ok ⟨some "sorry", []⟩)) jsonLoadsStub gRaising
        initialHistory "delete it").modelCalls = [true, false] :=
  C4_handler_failure
    (stubClient (.ok ⟨none, [⟨"d1", "delete_file", "ok"⟩]⟩) (.ok ⟨some "sorry", []⟩))
    jsonLoadsStub gRaising initialHistory "delete it"
    ⟨none, [⟨"d1", "delete_file", "ok"⟩]⟩ (fun _ => []) ⟨"d1", "delete_file", "ok"⟩
    (fun _ => .error "Permission denied") "Permission denied"
    rfl rfl rfl (by simp) (by intro c hcm; simp at hcm; subst hcm; rfl) (by simp)

/-! ## Claim C5 -/

/-- C5, refuted as stated: the first model response IS an invocation batch
(first conjunct), yet the loop performs ZERO synthesis passes — only the
one catalog-offered model call happens and no Assistant turn carrying any
synthesis text is emitted — because the single invocation's payload
"bogus" fails to parse and the turn aborts. -/
theorem C5_counterexample :
    (stubClient (.ok ⟨none, [⟨"s1", "read_file", "bogus"⟩]⟩) (.ok ⟨some "SYNTH", []⟩)
        (initialHistory ++ [Turn.user "read it"]) true =
      .ok ⟨none, [⟨"s1", "read_file", "bogus"⟩]⟩) ∧
    (chat_step (stubClient (.ok ⟨none, [⟨"s1", "read_file", "bogus"⟩]⟩)
        (.ok ⟨some "SYNTH", []⟩)) jsonLoadsStub gStubNone initialHistory
        "read it").modelCalls = [true] ∧
    (chat_step (stubClient (.ok ⟨none, [⟨"s1", "read_file", "bogus"⟩]⟩)
        (.ok ⟨some "SYNTH", []⟩)) jsonLoadsStub gStubNone initialHistory
        "read it").events =
      [Event.content (some "Error: Expecting value: line 1 column 1 (char 0)")] :=
  ⟨rfl, rfl, rfl⟩

/-- C5 as amended: for every user turn whose first model response is an
invocation batch all of whose payloads parse, the loop performs exactly
one synthesis pass: the model-call trace is precisely [with-catalog,
without-catalog] — one further call, without the capability catalog, and
no second tool round — and when that synthesis call returns, its content
is appended as an Assistant turn and emitted as the final Content
event. -/
theorem C5_single_synthesis_pass (client : Client)
    (jsonLoads : String → Except String Args) (G : String → Option PyGlobal)
    (history : List Turn) (ui : String) (msg msg2 : ChatMessage) (argsF : ToolCall → Args)
    (hc : client (history ++ [Turn.user ui]) true = .ok msg)
    (hne : msg.tool_calls ≠ [])
    (hparse : ∀ c ∈ msg.tool_calls, jsonLoads c.arguments = .ok (argsF c))
    (hsynth : client (history ++ [Turn.user ui, Turn.assistantMsg msg.content msg.tool_calls]
        ++ batchResults G argsF msg.tool_calls) false = .ok msg2) :
    chat_step client jsonLoads G history ui =
      ⟨history ++ [Turn.user ui, Turn.assistantMsg msg.content msg.tool_calls]
          ++ batchResults G argsF msg.tool_calls ++ [Turn.assistant msg2.content],
       statusEvents msg.tool_calls ++ [Event.content msg2.content], [true, false]⟩ :=
  chat_step_batch_synth_ok client jsonLoads G history ui msg msg2 argsF hc hne hparse hsynth

/-- Witness for C5's amended theorem at a concrete single-invocation
batch followed by a successful synthesis call. -/
theorem C5_single_synthesis_pass_witness :
    chat_step (stubClient (.ok ⟨none, [⟨"p1", "is_directory", "path-demo"⟩]⟩)
        (.ok ⟨some "it is not a directory", []⟩)) jsonLoadsStub
        (backendGlobals demoImpls) initialHistory "is demo a directory" =
      ⟨initialHistory ++ [Turn.user "is demo a directory",
          Turn.assistantMsg none [⟨"p1", "is_directory", "path-demo"⟩]]
          ++ batchResults (backendGlobals demoImpls) jsonArgsDemo
              [⟨"p1", "is_directory", "path-demo"⟩]
          ++ [Turn.assistant (some "it is not a directory")],
       statusEvents [⟨"p1", "is_directory", "path-demo"⟩]
          ++ [Event.content (some "it is not a directory")], [true, false]⟩ :=
  C5_single_synthesis_pass
    (stubClient (.ok ⟨none, [⟨"p1", "is_directory", "path-demo"⟩]⟩)
      (.ok ⟨some "it is not a directory", []⟩))
    jsonLoadsStub (backendGlobals demoImpls) initialHistory "is demo a directory"
    ⟨none, [⟨"p1", "is_directory", "path-demo"⟩]⟩ ⟨some "it is not a directory", []⟩
    jsonArgsDemo rfl (by simp)
    (by intro c hcm; simp at hcm; subst hcm; rfl) rfl

/-! ## Claim C6 -/

/-- C6, confirmed: if the model client raises on either model call of a
user turn, the turn ends with a single Content event describing the error,
the Conversation State retains everything appended so far in the turn (no
rollback), and — first-call failure — the history grows by exactly one
turn (the user turn). The session object itself is untouched beyond the
history, so the next `chat_step` proceeds from the returned history. -/
theorem C6_model_unavailable (client : Client) (jsonLoads : String → Except String Args)
    (G : String → Option PyGlobal) (history : List Turn) (ui e : String) :
    (client (history ++ [Turn.user ui]) true = .error e →
      chat_step client jsonLoads G history ui =
        ⟨history ++ [Turn.user ui],
         [Event.content (some ("Error: " ++ e))], [true]⟩ ∧
      (chat_step client jsonLoads G history ui).history.length = history.length + 1) ∧
    (∀ (msg : ChatMessage) (argsF : ToolCall → Args),
      client (history ++ [Turn.user ui]) true = .ok msg →
      msg.tool_calls ≠ [] →
      (∀ c ∈ msg.tool_calls, jsonLoads c.arguments = .ok (argsF c)) →
      client (history ++ [Turn.user ui, Turn.assistantMsg msg.content msg.tool_calls]
          ++ batchResults G argsF msg.tool_calls) false = .error e →
      chat_step client jsonLoads G history ui =
        ⟨history ++ [Turn.user ui, Turn.assistantMsg msg.content msg.tool_calls]
            ++ batchResults G argsF msg.tool_calls,
         statusEvents msg.tool_calls ++ [Event.content (some ("Error: " ++ e))],
         [true, false]⟩) := by
  constructor
  · intro hc
    have h := chat_step_client_error client jsonLoads G history ui e hc
    exact ⟨h, by rw [h]; simp⟩
  · intro msg argsF hc hne hparse hsynth
    exact chat_step_batch_synth_error client jsonLoads G history ui msg e argsF
      hc hne hparse hsynth

/-- Witness for C6 at concrete failures of the first and of the second
model call. -/
theorem C6_model_unavailable_witness :
    (chat_step (stubClient (.error "Connection timed out") (.ok ⟨some "later", []⟩))
        jsonLoadsStub gStubNone initialHistory "hello" =
      ⟨initialHistory ++ [Turn.user "hello"],
       [Event.content (some ("Error: " ++ "Connection timed out"))], [true]⟩ ∧
     (chat_step (stubClient (.error "Connection timed out") (.ok ⟨some "later", []⟩))
        jsonLoadsStub gStubNone initialHistory "hello").history.length =
       initialHistory.length + 1) ∧
    chat_step (stubClient (.ok ⟨none, [⟨"m1", "check_resources", "ok"⟩]⟩)
        (.error "Read timeout")) jsonLoadsStub gStubNone initialHistory "check" =
      ⟨initialHistory ++ [Turn.user "check",
          Turn.assistantMsg none [⟨"m1", "check_resources", "ok"⟩]]
          ++ batchResults gStubNone (fun _ => []) [⟨"m1", "check_resources", "ok"⟩],
       statusEvents [⟨"m1", "check_resources", "ok"⟩]
          ++ [Event.content (some ("Error: " ++ "Read timeout"))],
       [true, false]⟩ :=
  ⟨(C6_model_unavailable (stubClient (.error "Connection timed out") (.ok ⟨some "later", []⟩))
      jsonLoadsStub gStubNone initialHistory "hello" "Connection timed out").1 rfl,
   (C6_model_unavailable (stubClient (.ok ⟨none, [⟨"m1", "check_resources", "ok"⟩]⟩)
      (.error "Read timeout")) jsonLoadsStub gStubNone initialHistory "check" "Read timeout").2
     ⟨none, [⟨"m1", "check_resources", "ok"⟩]⟩ (fun _ => []) rfl (by simp)
     (by intro c hcm; simp at hcm; subst hcm; rfl) rfl⟩

/-! ## Claim C7 -/

/-- C7, confirmed: for every session (any client, parser and globals) and
every sequence of user turns, each `chat_step` only appends (the prior
history is an unchanged prefix and the appended suffix is nonempty), the
fixed system turn set at session creation remains the first turn
throughout, and the turn count strictly increases with every user turn. -/
theorem C7_system_turn_invariant (client : Client)
    (jsonLoads : String → Except String Args) (G : String → Option PyGlobal) :
    (∀ (history : List Turn) (ui : String), ∃ d : List Turn, d ≠ [] ∧
        (chat_step client jsonLoads G history ui).history = history ++ d) ∧
    (∀ inputs : List String,
        (runSession client jsonLoads G inputs initialHistory).head? =
          some (Turn.system systemPrompt)) ∧
    (∀ (history : List Turn) (ui : String),
        history.length < (chat_step client jsonLoads G history ui).history.length) := by
  refine ⟨?_, ?_, ?_⟩
  · intro history ui
    obtain ⟨d, hd⟩ := chat_step_appends client jsonLoads G history ui
    exact ⟨Turn.user ui :: d, by simp, hd⟩
  · intro inputs
    obtain ⟨d, hd⟩ := runSession_extends client jsonLoads G inputs initialHistory
    rw [hd]
    rfl
  · intro history ui
    obtain ⟨d, hd⟩ := chat_step_appends client jsonLoads G history ui
    rw [hd]
    simp

/-! ## Claim C8 -/

/-- C8, confirmed: in every run of `chat_step` (any client, parser and
globals, so in every path: plain answer, full batch, aborted batch, failed
model call), the emitted event sequence is some status events followed by
exactly one Content event; hence the final event of every user turn is a
Content event and no Status event follows it. -/
theorem C8_events_status_then_content (client : Client)
    (jsonLoads : String → Except String Args) (G : String → Option PyGlobal)
    (history : List Turn) (ui : String) :
    ∃ (ss : List String) (t : Option String),
      (chat_step client jsonLoads G history ui).events =
        ss.map Event.status ++ [Event.content t] := by
  unfold chat_step
  cases hc : client (history ++ [Turn.user ui]) true with
  | error e => exact ⟨[], some ("Error: " ++ e), rfl⟩
  | ok msg =>
    by_cases h0 : msg.tool_calls = []
    · simp only [if_pos h0]
      exact ⟨[], msg.content, rfl⟩
    · simp only [if_neg h0]
      rcases hrun : runToolCalls jsonLoads G msg.tool_calls with ⟨ts, evs, err⟩
      obtain ⟨ss, hss⟩ : ∃ ss : List String, evs = ss.map Event.status := by
        have h := runToolCalls_events_status jsonLoads G msg.tool_calls
        rw [hrun] at h
        exact h
      cases err with
      | some e => exact ⟨ss, some ("Error: " ++ e), by simp [hss]⟩
      | none =>
        cases hc2 : client (history ++ [Turn.user ui, Turn.assistantMsg msg.content msg.tool_calls]
            ++ ts) false with
        | error e =>
          refine ⟨ss, some ("Error: " ++ e), ?_⟩
          simp only [List.append_assoc, List.cons_append, List.nil_append] at hc2
          simp [hc2, hss]
        | ok msg2 =>
          refine ⟨ss, msg2.content, ?_⟩
          simp only [List.append_assoc, List.cons_append, List.nil_append] at hc2
          simp [hc2, hss]

/-! ## Claim C9 -/

/-- C9, refuted as stated: the claim names `manage_files` as a
module-level global the Dispatcher would attempt to invoke; but
src/backend.py never imports `manage_files` (it lives only in
src/tools.py), so it is NOT in the backend module's globals and the
Dispatcher reports it as not implemented instead of invoking it. -/
theorem C9_counterexample :
    "manage_files" ∉ backendGlobalNames ∧
    dispatch (backendGlobals demoImpls) "manage_files" [("action", "delete")] =
      "Error: Function manage_files not implemented." :=
  ⟨by decide, rfl⟩

/-- C9 as amended: the Dispatcher resolves the requested name against the
backend module's global namespace, not the advertised catalog: every name
bound in the backend module (for example `is_directory`, or the imported
module object `os` — both absent from the catalog) is looked up and
invoked, with the call's outcome (or raised exception) normalized to text;
only names absent from the backend module's globals — among them
`manage_files`, which the backend never imports — produce the
not-implemented result. -/
theorem C9_dispatch_by_globals (impls : String → Args → Except String String) :
    (∀ (name : String) (args : Args), name ∈ backendGlobalNames →
        ∃ g : PyGlobal, backendGlobals impls name = some g ∧
          dispatch (backendGlobals impls) name args = execResultText (callGlobal g args)) ∧
    (∀ (name : String) (args : Args), name ∉ backendGlobalNames →
        dispatch (backendGlobals impls) name args =
          "Error: Function " ++ name ++ " not implemented.") ∧
    "is_directory" ∈ backendGlobalNames ∧ "is_directory" ∉ catalogNames ∧
    "os" ∈ backendGlobalNames ∧ "os" ∉ catalogNames ∧
    "manage_files" ∉ backendGlobalNames := by
  refine ⟨?_, ?_, by decide, by decide, by decide, by decide, by decide⟩
  · intro name args hmem
    obtain ⟨g, hg⟩ := backendGlobals_mem impls name hmem
    exact ⟨g, hg, by simp [dispatch, hg]⟩
  · intro name args hmem
    simp [dispatch, backendGlobals_not_mem impls name hmem]

/-- Witness for C9's amended theorem: `is_directory` (in the globals,
invoked) and `not_a_known_name` (absent, reported not implemented). -/
theorem C9_dispatch_by_globals_witness :
    (∃ g : PyGlobal, backendGlobals demoImpls "is_directory" = some g ∧
        dispatch (backendGlobals demoImpls) "is_directory" [("path", "demo")] =
          execResultText (callGlobal g [("path", "demo")])) ∧
    dispatch (backendGlobals demoImpls) "not_a_known_name" [] =
      "Error: Function " ++ "not_a_known_name" ++ " not implemented." :=
  ⟨(C9_dispatch_by_globals demoImpls).1 "is_directory" [("path", "demo")] (by decide),
   (C9_dispatch_by_globals demoImpls).2.1 "not_a_known_name" [] (by decide)⟩

/-! ## Claim C10 -/

/-- C10, confirmed: although the catalog advertises `write_to_file` as
"Overwrite file content.", the implementation delegates to `create_file`,
so for every path whose resolution names an existing file the call returns
the already-exists error and changes nothing (the existing content is
still there afterwards); and a write yields the success message only when
the resolved target does not exist. -/
theorem C10_write_to_file_never_overwrites (fs : FS) (path c0 c : String)
    (hex : fs.lookup (_resolve_path fs path) = some (.file c0)) :
    write_to_file fs path c = (fs, "Error: File " ++ path ++ " already exists.") ∧
    (write_to_file fs path c).1.lookup (_resolve_path fs path) = some (.file c0) ∧
    (TOOLS_SCHEMA.find? (fun d => d.name = "write_to_file")).map
      (fun d => d.description) = some "Overwrite file content." ∧
    (∀ (fs2 : FS) (p2 c2 : String), fs2.pathExists (_resolve_path fs2 p2) = false →
        (write_to_file fs2 p2 c2).2 = "File created: " ++ p2) := by
  have hpe : fs.pathExists (_resolve_path fs path) = true := by
    unfold FS.pathExists
    rw [hex]
    rfl
  have h1 : write_to_file fs path c = (fs, "Error: File " ++ path ++ " already exists.") := by
    unfold write_to_file create_file
    simp [hpe]
  refine ⟨h1, by rw [h1]; exact hex, rfl, ?_⟩
  intro fs2 p2 c2 hne
  unfold write_to_file create_file
  simp [hne]

/-- A filesystem holding one file, for C10's witness. -/
def demoFS2 : FS :=
  ⟨"/home/user", "/home/user", [("/home/user/notes.txt", .file "old text")]⟩

/-- Witness for C10 at a concrete existing file: the write is refused and
the old content survives. -/
theorem C10_write_to_file_never_overwrites_witness :
    write_to_file demoFS2 "/home/user/notes.txt" "new text" =
      (demoFS2, "Error: File " ++ "/home/user/notes.txt" ++ " already exists.") ∧
    (write_to_file demoFS2 "/home/user/notes.txt" "new text").1.lookup
      (_resolve_path demoFS2 "/home/user/notes.txt") = some (.file "old text") ∧
    (TOOLS_SCHEMA.find? (fun d => d.name = "write_to_file")).map
      (fun d => d.description) = some "Overwrite file content." ∧
    (∀ (fs2 : FS) (p2 c2 : String), fs2.pathExists (_resolve_path fs2 p2) = false →
        (write_to_file fs2 p2 c2).2 = "File created: " ++ p2) :=
  C10_write_to_file_never_overwrites demoFS2 "/home/user/notes.txt" "old text" "new text"
    (by decide)

end SystemIntelligence
